import Mathlib

/-!
Shallow embedding of the ad-blocking core of the YouTubeBG repository:
`src/adblock/services/UrlBlockerService.ts`, `src/adblock/filters/youtube-ads.ts`,
`src/adblock/scripts/adRemoval.ts` and `src/adblock/services/ScriptInjector.ts`.

Strings are modelled as Lean `String` / `List Char`.  JavaScript `RegExp`
objects produced by `patternToRegex` are modelled semantically: after the
escaping step every character of the pattern other than `*` is a literal,
each `*` becomes an arbitrary-gap matcher, and the `i` flag makes the match
case-insensitive (ASCII case folding, which is exact for the ASCII rule data
and URLs used throughout).  A compiled pattern is therefore represented by
its list of literal chunks (the pattern split at `*`), and `RegExp.test` by
an ordered-substring search over lower-cased text.
-/

set_option maxRecDepth 40000

namespace YouTubeBG

/-- ASCII lower-casing of one character, as performed by
`String.prototype.toLowerCase` / the RegExp `i` flag on ASCII input. -/
def lowChar (c : Char) : Char :=
  if 65 ≤ c.toNat ∧ c.toNat ≤ 90 then Char.ofNat (c.toNat + 32) else c

/-- Lower-case a character list. -/
def lowStr (s : List Char) : List Char := s.map lowChar

/-- Does `n` occur at the very start of `h`? (prefix test). -/
def leadsWith : List Char → List Char → Bool
  | [], _ => true
  | _ :: _, [] => false
  | a :: as, b :: bs => a == b && leadsWith as bs

/-- Drop everything up to and including the first occurrence of `n` in the
haystack; `none` when `n` does not occur. -/
def afterFirst (n : List Char) : List Char → Option (List Char)
  | [] => if leadsWith n [] then some [] else none
  | c :: t => if leadsWith n (c :: t) then some ((c :: t).drop n.length) else afterFirst n t

/-- Does `n` occur anywhere inside `h`? (substring test). -/
def occursIn (n h : List Char) : Bool := (afterFirst n h).isSome

/-- Split a character list at every occurrence of the separator, JavaScript
`String.prototype.split` semantics (`"a..b".split('.') = ["a","","b"]`,
`"".split('.') = [""]`); this is exactly `List.splitOn`. -/
def splitOnChar (sep : Char) (l : List Char) : List (List Char) :=
  l.splitOn sep

/-- Match a sequence of literal chunks (the pieces of a wildcard pattern
between the `*`s) in order, with arbitrary gaps, anywhere in the haystack.
This is `RegExp.test` for the regex `c1.*c2.*...*cn` (unanchored). -/
def chunksMatch : List (List Char) → List Char → Bool
  | [], _ => true
  | c :: cs, s =>
    match afterFirst c s with
    | none => false
    | some rest => chunksMatch cs rest

/-- Number of positions of the haystack at which `n` occurs. -/
def countOcc (n : List Char) : List Char → Nat
  | [] => if leadsWith n [] then 1 else 0
  | c :: t => (if leadsWith n (c :: t) then 1 else 0) + countOcc n t

/-! ### Static rule data (`src/adblock/filters/youtube-ads.ts`) -/

/-- `AD_DOMAINS` from `youtube-ads.ts` (lines 11-43). -/
def AD_DOMAINS : List String :=
  [ "googlesyndication.com",
    "googleadservices.com",
    "googleads.g.doubleclick.net",
    "doubleclick.net",
    "ad.doubleclick.net",
    "pagead2.googlesyndication.com",
    "adservice.google.com",
    "www.googleadservices.com",
    "google-analytics.com",
    "googletagmanager.com",
    "googletagservices.com",
    "youtube.cleverads.vn",
    "yt3.ggpht.com",
    "serving-sys.com",
    "advertising.com",
    "adnxs.com",
    "adsrvr.org",
    "bidswitch.net",
    "taboola.com",
    "outbrain.com",
    "criteo.com",
    "amazon-adsystem.com",
    "moatads.com",
    "scorecardresearch.com" ]

/-- `AD_URL_PATTERNS` from `youtube-ads.ts` (lines 49-81). -/
def AD_URL_PATTERNS : List String :=
  [ "/api/stats/ads",
    "/api/stats/qoe?",
    "/pagead/",
    "/ptracking",
    "/get_video_info?*adformat",
    "/get_midroll_info",
    "/api/ads/",
    "/youtubei/v1/player/ad_break",
    "&ad_type=",
    "&adurl=",
    "?adurl=",
    "&ad_flags=",
    "annotation_id=",
    "&cta_type=",
    "/gen_204?",
    "/log_event?",
    "/pcs/activeview",
    "/pagead/viewthroughconversion",
    "/base.js",
    "/desktop_polymer.js",
    "&adsid=",
    "&ad_channel_code=" ]

/-- `ALLOW_PATTERNS` from `youtube-ads.ts` (lines 86-92). -/
def ALLOW_PATTERNS : List String :=
  [ "/videoplayback?",
    "/manifest/",
    "/api/timedtext",
    "/generate_204" ]

/-! ### UrlBlockerService (`src/adblock/services/UrlBlockerService.ts`) -/

/-- `BlockerConfig` from `types.ts` (lines 49-56).  The constructor merges a
partial config over `DEFAULT_CONFIG`; here a full config is always supplied. -/
structure BlockerConfig where
  enabled : Bool
  logBlocked : Bool
  customRules : List String
deriving Repr, DecidableEq

/-- `BlockResult` from `types.ts` (lines 37-44).  The optional `matchedRule`
record is represented by its `pattern` field (its `regex` member is an opaque
JavaScript object and its `type` is always the literal `block` where the
service constructs one). -/
structure BlockResult where
  blocked : Bool
  reason : Option String
  matchedRulePattern : Option String
deriving Repr, DecidableEq

/-- `CompiledFilters` from `UrlBlockerService.ts` (lines 23-27).  The
`Set<string>` of domains is a duplicate-free literal list queried by exact
membership; each compiled `RegExp` is its chunk decomposition. -/
structure CompiledFilters where
  blockedDomains : List (List Char)
  blockedPatterns : List (List (List Char))
  allowPatterns : List (List (List Char))
deriving Repr, DecidableEq

/-- `patternToRegex` (lines 67-74): every regex metacharacter except `*` is
escaped, `*` becomes `.*`, and the `i` flag is set.  Semantically the
compiled regex is the list of literal chunks of the pattern split at `*`. -/
def patternToRegex (pattern : String) : List (List Char) :=
  splitOnChar (Char.ofNat 42) pattern.data

/-- `RegExp.test` for a compiled pattern: ordered-substring search over
lower-cased text (the `i` flag applied ASCII-wise to both sides). -/
def regexTest (chunks : List (List Char)) (url : String) : Bool :=
  chunksMatch (chunks.map lowStr) (lowStr url.data)

set_option linter.unusedVariables false in
/-- `compileFilters` (lines 47-62).  Note: faithful to the source, the
`config` argument is never consulted — in particular `config.customRules`
is NOT appended to the blocked patterns. -/
def compileFilters (config : BlockerConfig) : CompiledFilters :=
  { blockedDomains := AD_DOMAINS.map String.data
    blockedPatterns := AD_URL_PATTERNS.map patternToRegex
    allowPatterns := ALLOW_PATTERNS.map patternToRegex }

/-- Characters admissible in the hostname capture group `[^\/\?]+` of the
fallback regex in `extractDomain`. -/
def hostChar (c : Char) : Bool := c ≠ '/' && c ≠ '?'

/-- The optional scheme group `(?:https?:\/\/)?`, case-insensitive. -/
def schemeDrop (cs : List Char) : Option (List Char) :=
  if lowStr (cs.take 8) = "https://".data then some (cs.drop 8)
  else if lowStr (cs.take 7) = "http://".data then some (cs.drop 7)
  else none

/-- `extractDomain` (lines 79-88).  WHATWG `new URL` parsing and the fallback
regex `^(?:https?:\/\/)?([^\/\?]+)` agree on the hostname for every
`scheme://host/path` input considered in this development; the embedding
follows the fallback regex (line 85), including its backtracking (when the
scheme is consumed but no hostname character follows, the optional group is
retried as absent), followed by `toLowerCase` on the capture. -/
def extractDomain (url : String) : Option (List Char) :=
  match schemeDrop url.data with
  | some rest =>
    let h := rest.takeWhile hostChar
    if h ≠ [] then some (lowStr h)
    else
      let h2 := url.data.takeWhile hostChar
      if h2 ≠ [] then some (lowStr h2) else none
  | none =>
    let h2 := url.data.takeWhile hostChar
    if h2 ≠ [] then some (lowStr h2) else none

/-- `isDomainBlocked` (lines 93-109): exact membership, then every
dot-delimited suffix obtained by dropping `i` leading labels for
`1 ≤ i < parts.length - 1`. -/
def isDomainBlocked (doms : List (List Char)) (domain : List Char) : Bool :=
  doms.contains domain ||
    (let parts := splitOnChar '.' domain
     (List.range parts.length).any fun i =>
       decide (1 ≤ i) && decide (i < parts.length - 1) &&
         doms.contains (List.intercalate ['.'] (parts.drop i)))

/-- `matchesBlockedPattern` (lines 114-116). -/
def matchesBlockedPattern (f : CompiledFilters) (url : String) : Bool :=
  f.blockedPatterns.any fun r => regexTest r url

/-- `matchesAllowPattern` (lines 121-123). -/
def matchesAllowPattern (f : CompiledFilters) (url : String) : Bool :=
  f.allowPatterns.any fun r => regexTest r url

/-- The mutable state of a `UrlBlockerService` instance: its config, its
compiled filters and the `blockedCount` counter. -/
structure BlockerState where
  config : BlockerConfig
  filters : CompiledFilters
  blockedCount : Nat
deriving Repr, DecidableEq

/-- The constructor (lines 38-41): store the config, compile the filters,
start the counter at zero. -/
def mkBlocker (config : BlockerConfig) : BlockerState :=
  { config := config, filters := compileFilters config, blockedCount := 0 }

/-- `logBlocked` (lines 175-181): when `config.logBlocked` is set, increment
the counter (the `console.log` diagnostics carry no state). -/
def logBlocked (st : BlockerState) : BlockerState :=
  if st.config.logBlocked then { st with blockedCount := st.blockedCount + 1 } else st

/-- `shouldBlock` (lines 131-170).  The input is an `Option String`: `none`
models the `undefined`/non-string case rejected by the
`!url || typeof url !== 'string'` guard.  Returns the `BlockResult` together
with the successor state (the counter is the only mutable field touched). -/
def shouldBlock (st : BlockerState) (url : Option String) : BlockResult × BlockerState :=
  if !st.config.enabled then
    ({ blocked := false, reason := some "Blocking disabled", matchedRulePattern := none }, st)
  else
    match url with
    | none => ({ blocked := false, reason := some "Invalid URL", matchedRulePattern := none }, st)
    | some u =>
      if u = "" then
        ({ blocked := false, reason := some "Invalid URL", matchedRulePattern := none }, st)
      else if matchesAllowPattern st.filters u then
        ({ blocked := false, reason := some "Matched allow pattern", matchedRulePattern := none }, st)
      else
        match extractDomain u with
        | some d =>
          if isDomainBlocked st.filters.blockedDomains d then
            ({ blocked := true, reason := some ("Blocked domain: " ++ String.mk d),
               matchedRulePattern := some (String.mk d) }, logBlocked st)
          else if matchesBlockedPattern st.filters u then
            ({ blocked := true, reason := some "Matched blocked URL pattern",
               matchedRulePattern := some u }, logBlocked st)
          else
            ({ blocked := false, reason := none, matchedRulePattern := none }, st)
        | none =>
          if matchesBlockedPattern st.filters u then
            ({ blocked := true, reason := some "Matched blocked URL pattern",
               matchedRulePattern := some u }, logBlocked st)
          else
            ({ blocked := false, reason := none, matchedRulePattern := none }, st)

/-- The record returned by `getStats` (lines 186-191). -/
structure Stats where
  blockedCount : Nat
  enabled : Bool
deriving Repr, DecidableEq

/-- `getStats` (lines 186-191). -/
def getStats (st : BlockerState) : Stats :=
  { blockedCount := st.blockedCount, enabled := st.config.enabled }

/-- `setEnabled` (lines 196-198). -/
def setEnabled (st : BlockerState) (enabled : Bool) : BlockerState :=
  { st with config := { st.config with enabled := enabled } }

/-- `resetStats` (lines 203-205). -/
def resetStats (st : BlockerState) : BlockerState :=
  { st with blockedCount := 0 }

/-! ### Content script generation (`src/adblock/scripts/adRemoval.ts`) -/

/-- `AdSelector` from `types.ts` (lines 61-68); `action` is one of the
string literals `hide` / `remove`. -/
structure AdSelector where
  selector : String
  action : String
  description : String
deriving Repr, DecidableEq

/-- `YOUTUBE_AD_SELECTORS` from `adRemoval.ts` (lines 11-27). -/
def YOUTUBE_AD_SELECTORS : List AdSelector :=
  [ { selector := ".video-ads", action := "remove", description := "Video ad container" },
    { selector := ".ytp-ad-module", action := "remove", description := "Ad module in player" },
    { selector := ".ytp-ad-overlay-container", action := "remove", description := "Overlay ads" },
    { selector := ".ytp-ad-text-overlay", action := "remove", description := "Text overlay" },
    { selector := ".ytp-ad-player-overlay", action := "remove", description := "Player overlay" },
    { selector := "ytmusic-player-bar[has-ads]", action := "hide", description := "Player bar ads" },
    { selector := "ytd-promoted-sparkles-web-renderer", action := "remove", description := "Promoted" },
    { selector := "ytd-display-ad-renderer", action := "remove", description := "Display ad" },
    { selector := "ytd-ad-slot-renderer", action := "remove", description := "Ad slot" },
    { selector := "#masthead-ad", action := "remove", description := "Masthead" } ]

/-- The comma-joined selector list
`YOUTUBE_AD_SELECTORS.map(s => s.selector).join(',')` computed by each
generator. -/
def joinedSelectors : String :=
  String.intercalate "," (YOUTUBE_AD_SELECTORS.map fun s => s.selector)

/-- `generateAdRemovalScript` (lines 32-112): the template literal with the
joined selector list interpolated at the `SELECTORS` constant.  Braces are
written `\x7b`/`\x7d` and single quotes `\x27`; the text is otherwise the
source template verbatim, one Lean literal per line. -/
def generateAdRemovalScript : String :=
  "\n"
  ++ "(function() \x7b\n"
  ++ "  \x27use strict\x27;\n"
  ++ "  \n"
  ++ "  const SELECTORS = \x27" ++ joinedSelectors ++ "\x27;\n"
  ++ "  let lastCheck = 0;\n"
  ++ "  \n"
  ++ "  // Remove ad elements\n"
  ++ "  function removeAds() \x7b\n"
  ++ "    try \x7b\n"
  ++ "      document.querySelectorAll(SELECTORS).forEach(el => \x7b\n"
  ++ "        el.style.cssText = \x27display:none!important;height:0!important;\x27;\n"
  ++ "      \x7d);\n"
  ++ "    \x7d catch(e) \x7b\x7d\n"
  ++ "  \x7d\n"
  ++ "  \n"
  ++ "  // Skip video ads - THIS IS CRITICAL\n"
  ++ "  function skipVideoAd() \x7b\n"
  ++ "    try \x7b\n"
  ++ "      // Click skip button\n"
  ++ "      const skipBtn = document.querySelector(\x27.ytp-ad-skip-button, .ytp-skip-ad-button, .ytp-ad-skip-button-modern, [class*=\"skip-button\"]\x27);\n"
  ++ "      if (skipBtn) \x7b\n"
  ++ "        skipBtn.click();\n"
  ++ "        return;\n"
  ++ "      \x7d\n"
  ++ "      \n"
  ++ "      // Check if ad is playing\n"
  ++ "      const adPlaying = document.querySelector(\x27.ad-showing, .ad-interrupting, [class*=\"ad-showing\"]\x27);\n"
  ++ "      const video = document.querySelector(\x27video\x27);\n"
  ++ "      \n"
  ++ "      if (adPlaying && video && video.duration) \x7b\n"
  ++ "        // Skip to end of ad\n"
  ++ "        video.currentTime = video.duration;\n"
  ++ "        video.playbackRate = 16;\n"
  ++ "      \x7d\n"
  ++ "    \x7d catch(e) \x7b\x7d\n"
  ++ "  \x7d\n"
  ++ "  \n"
  ++ "  // Throttled check (runs max every 500ms)\n"
  ++ "  function checkAds() \x7b\n"
  ++ "    const now = Date.now();\n"
  ++ "    if (now - lastCheck < 500) return;\n"
  ++ "    lastCheck = now;\n"
  ++ "    \n"
  ++ "    removeAds();\n"
  ++ "    skipVideoAd();\n"
  ++ "  \x7d\n"
  ++ "  \n"
  ++ "  // Observe DOM changes\n"
  ++ "  function startObserver() \x7b\n"
  ++ "    const observer = new MutationObserver(checkAds);\n"
  ++ "    observer.observe(document.documentElement, \x7b\n"
  ++ "      childList: true,\n"
  ++ "      subtree: true,\n"
  ++ "      attributes: true,\n"
  ++ "      attributeFilter: [\x27class\x27]\n"
  ++ "    \x7d);\n"
  ++ "  \x7d\n"
  ++ "  \n"
  ++ "  // Init\n"
  ++ "  function init() \x7b\n"
  ++ "    removeAds();\n"
  ++ "    skipVideoAd();\n"
  ++ "    startObserver();\n"
  ++ "    \n"
  ++ "    // Backup: check every 2s for video ads that slip through\n"
  ++ "    setInterval(skipVideoAd, 2000);\n"
  ++ "  \x7d\n"
  ++ "  \n"
  ++ "  if (document.readyState === \x27loading\x27) \x7b\n"
  ++ "    document.addEventListener(\x27DOMContentLoaded\x27, init);\n"
  ++ "  \x7d else \x7b\n"
  ++ "    init();\n"
  ++ "  \x7d\n"
  ++ "\x7d)();\n"
  ++ "true;\n"

/-- `generateAdHidingCSS` (lines 117-120). -/
def generateAdHidingCSS : String :=
  joinedSelectors ++ ",.ad-showing video\x7bdisplay:none!important;height:0!important;\x7d"

/-- The single-quote character, written by code point to keep quote escaping
explicit. -/
def aposChar : Char := Char.ofNat 39

/-- The backslash character. -/
def backslashChar : Char := Char.ofNat 92

/-- JavaScript `css.replace(/'/g, "\\'")`: prefix every single quote with a
backslash. -/
def escapeApos (s : String) : String :=
  String.mk (s.data.foldr (fun c acc =>
    if c = aposChar then backslashChar :: aposChar :: acc else c :: acc) [])

/-- `generatePreloadScript` (lines 125-135). -/
def generatePreloadScript : String :=
  "\n"
  ++ "(function()\x7b\n"
  ++ "  var s=document.createElement(\x27style\x27);\n"
  ++ "  s.textContent=\x27" ++ escapeApos generateAdHidingCSS ++ "\x27;\n"
  ++ "  (document.head||document.documentElement).appendChild(s);\n"
  ++ "\x7d)();\n"
  ++ "true;\n"

/-! ### ScriptInjectorService (`src/adblock/services/ScriptInjector.ts`) -/

/-- The mutable cache fields of a `ScriptInjectorService` instance
(lines 13-15). -/
structure InjectorState where
  cachedMainScript : Option String
  cachedPreloadScript : Option String
deriving Repr, DecidableEq

/-- A freshly constructed `ScriptInjectorService`: both caches empty. -/
def newInjector : InjectorState :=
  { cachedMainScript := none, cachedPreloadScript := none }

/-- `getMainScript` (lines 20-25): generate on first call, then serve the
cached text. -/
def getMainScript (st : InjectorState) : String × InjectorState :=
  match st.cachedMainScript with
  | some s => (s, st)
  | none => (generateAdRemovalScript, { st with cachedMainScript := some generateAdRemovalScript })

/-- `getPreloadScript` (lines 30-35). -/
def getPreloadScript (st : InjectorState) : String × InjectorState :=
  match st.cachedPreloadScript with
  | some s => (s, st)
  | none => (generatePreloadScript, { st with cachedPreloadScript := some generatePreloadScript })

/-- `getInjectedJavaScript` (lines 40-42): returns the main script. -/
def getInjectedJavaScript (st : InjectorState) : String × InjectorState :=
  getMainScript st

set_option linter.unusedVariables false in
/-- `getAdHidingCSS` (lines 47-49). -/
def getAdHidingCSS (st : InjectorState) : String :=
  generateAdHidingCSS

/-- `clearCache` (lines 54-57). -/
def clearCache (st : InjectorState) : InjectorState :=
  { st with cachedMainScript := none, cachedPreloadScript := none }

/-! ### Auxiliary vocabulary for stating the spec's properties -/

/-- The characters of a DNS hostname label (ASCII letters, digits, hyphen). -/
def labelChars : List Char :=
  "abcdefghijklmnopqrstuvwxyzABCDEFGHIJKLMNOPQRSTUVWXYZ0123456789-".data

/-- Is `c` a hostname-label character? -/
def isLabelChar (c : Char) : Bool := labelChars.contains c

/-- A hostname label: nonempty, made of label characters. -/
def isLabel (s : String) : Bool := !s.data.isEmpty && s.data.all isLabelChar

/-- The characters occurring in the entries of the static blocked-domain
list: lower-case letters, digits, hyphen and dot. -/
def domChars : List Char := "abcdefghijklmnopqrstuvwxyz0123456789-.".data

/-- Is `c` a (lower-case) blocked-domain-list character? -/
def isDomChar (c : Char) : Bool := domChars.contains c

/-! ### Toolkit lemmas about the string-search primitives -/

theorem leadsWith_iff {n h : List Char} : leadsWith n h = true ↔ ∃ t, h = n ++ t := by
  induction n generalizing h with
  | nil => simp [leadsWith]
  | cons a as ih =>
    cases h with
    | nil => simp [leadsWith]
    | cons b bs =>
      simp only [leadsWith, Bool.and_eq_true, beq_iff_eq, ih, List.cons_append,
        List.cons_eq_cons]
      constructor
      · rintro ⟨rfl, t, rfl⟩
        exact ⟨t, rfl, rfl⟩
      · rintro ⟨t, rfl, rfl⟩
        exact ⟨rfl, t, rfl⟩

theorem occursIn_nil {n : List Char} : occursIn n [] = true ↔ n = [] := by
  cases n <;> simp [occursIn, afterFirst, leadsWith]

theorem occursIn_cons {n : List Char} {c : Char} {t : List Char} :
    occursIn n (c :: t) = (leadsWith n (c :: t) || occursIn n t) := by
  by_cases hl : leadsWith n (c :: t) = true <;> simp [occursIn, afterFirst, hl]

theorem occursIn_iff {n h : List Char} : occursIn n h = true ↔ ∃ l r, h = l ++ n ++ r := by
  induction h with
  | nil =>
    rw [occursIn_nil]
    constructor
    · rintro rfl; exact ⟨[], [], rfl⟩
    · rintro ⟨l, r, h⟩
      rcases List.append_eq_nil.mp (List.append_eq_nil.mp h.symm).1 with ⟨-, h2⟩
      exact h2
  | cons c t ih =>
    rw [occursIn_cons]
    simp only [Bool.or_eq_true, leadsWith_iff, ih]
    constructor
    · rintro (⟨u, hu⟩ | ⟨l, r, rfl⟩)
      · exact ⟨[], u, by simpa using hu⟩
      · exact ⟨c :: l, r, rfl⟩
    · rintro ⟨l, r, h⟩
      cases l with
      | nil => exact Or.inl ⟨r, by simpa using h⟩
      | cons x xs =>
        rw [List.cons_append, List.cons_append, List.cons_eq_cons] at h
        exact Or.inr ⟨xs, r, h.2⟩

theorem occursIn_chars {n h : List Char} (hocc : occursIn n h = true) :
    ∀ c ∈ n, c ∈ h := by
  obtain ⟨l, r, rfl⟩ := occursIn_iff.mp hocc
  intro c hc
  simp only [List.append_assoc, List.mem_append]
  exact Or.inr (Or.inl hc)

theorem leadsWith_head_ne {a : Char} {as : List Char} {b : Char} {bs : List Char}
    (hab : a ≠ b) : leadsWith (a :: as) (b :: bs) = false := by
  simp [leadsWith, beq_eq_false_iff_ne, hab]

theorem occursIn_append_skip {c : Char} {p a b : List Char} (ha : ∀ x ∈ a, x ≠ c) :
    occursIn (c :: p) (a ++ b) = occursIn (c :: p) b := by
  induction a with
  | nil => rfl
  | cons x xs ih =>
    rw [List.cons_append, occursIn_cons, leadsWith_head_ne (fun h => ha x (by simp) h.symm),
      ih fun y hy => ha y (List.mem_cons_of_mem _ hy)]
    simp

theorem chunksMatch_single {q s : List Char} : chunksMatch [q] s = occursIn q s := by
  simp only [chunksMatch, occursIn]
  cases afterFirst q s <;> simp [chunksMatch]

theorem leadsWith_take_subset {r m t : List Char} (h : leadsWith r (m ++ t) = true) :
    ∀ x ∈ r.take m.length, x ∈ m := by
  obtain ⟨u, hu⟩ := leadsWith_iff.mp h
  intro x hx
  have hm : m = r.take m.length ++ u.take (m.length - r.length) := by
    have := congrArg (List.take m.length) hu
    rwa [List.take_left, List.take_append_eq_append_take] at this
  rw [hm]
  exact List.mem_append_left _ hx

/-! ### Character-class lemmas -/

theorem mem_of_isLabelChar {c : Char} (h : isLabelChar c = true) : c ∈ labelChars := by
  simpa [isLabelChar] using h

theorem mem_of_isDomChar {c : Char} (h : isDomChar c = true) : c ∈ domChars := by
  simpa [isDomChar] using h

theorem labelChar_facts {c : Char} (h : isLabelChar c = true) :
    lowChar c ≠ '/' ∧ lowChar c ≠ '?' ∧ lowChar c ≠ '_' ∧ lowChar c ≠ '.' ∧
      hostChar c = true ∧ isLabelChar (lowChar c) = true := by
  have hc := mem_of_isLabelChar h
  fin_cases hc <;> decide

theorem domChar_facts {c : Char} (h : isDomChar c = true) :
    lowChar c = c ∧ c ≠ '/' ∧ c ≠ '?' ∧ c ≠ '_' ∧ hostChar c = true := by
  have hc := mem_of_isDomChar h
  fin_cases hc <;> decide

theorem lowStr_append (a b : List Char) : lowStr (a ++ b) = lowStr a ++ lowStr b :=
  List.map_append lowChar a b

theorem lowStr_cons (c : Char) (t : List Char) : lowStr (c :: t) = lowChar c :: lowStr t := rfl

theorem lowStr_eq_self_of_domChars {d : List Char} (h : ∀ x ∈ d, isDomChar x = true) :
    lowStr d = d := by
  induction d with
  | nil => rfl
  | cons c t ih =>
    rw [lowStr_cons, (domChar_facts (h c (by simp))).1,
      ih fun y hy => h y (List.mem_cons_of_mem _ hy)]

/-! ### splitOnChar lemmas -/

theorem splitOnChar_no_sep {sep : Char} {l : List Char} (h : ∀ x ∈ l, x ≠ sep) :
    splitOnChar sep l = [l] := by
  unfold splitOnChar List.splitOn
  exact List.splitOnP_eq_single _ _ fun x hx => by simpa using h x hx

theorem splitOnChar_append {sep : Char} {a b : List Char} (h : ∀ x ∈ a, x ≠ sep) :
    splitOnChar sep (a ++ sep :: b) = a :: splitOnChar sep b := by
  unfold splitOnChar List.splitOn
  exact List.splitOnP_first _ _ (fun x hx => by simpa using h x hx) sep (by simp) b

theorem intercalate_splitOnChar (sep : Char) (l : List Char) :
    List.intercalate [sep] (splitOnChar sep l) = l :=
  List.intercalate_splitOn l sep

theorem takeWhile_append_all {p : Char → Bool} {a b : List Char}
    (h : ∀ x ∈ a, p x = true) :
    (a ++ b).takeWhile p = a ++ b.takeWhile p := by
  induction a with
  | nil => rfl
  | cons x xs ih =>
    rw [List.cons_append, List.takeWhile_cons, h x (by simp),
      ih fun y hy => h y (List.mem_cons_of_mem _ hy)]
    rfl

/-! ### The pattern matcher on wildcard-free patterns -/

theorem regexTest_starless {p : String} (hp : ∀ x ∈ p.data, x ≠ '*') (u : String) :
    regexTest (patternToRegex p) u = occursIn (lowStr p.data) (lowStr u.data) := by
  unfold regexTest patternToRegex
  rw [splitOnChar_no_sep hp, List.map_singleton, chunksMatch_single]

theorem not_occursIn_of_lacks {n h : List Char} {c : Char} (hc : c ∈ n) (hh : c ∉ h) :
    occursIn n h = false := by
  cases ho : occursIn n h with
  | false => rfl
  | true => exact absurd (occursIn_chars ho c hc) hh

/-! ### URLs of the shape `https://<label>.<blocked-domain>/x` -/

theorem data_composite (L D : String) :
    ("https://" ++ L ++ "." ++ D ++ "/x").data
      = "https://".data ++ (L.data ++ '.' :: (D.data ++ ['/', 'x'])) := by
  simp only [String.data_append, List.append_assoc]
  rfl

theorem not_occursIn_slash_composite {rest : List Char} {M : List Char}
    (hM : ∀ x ∈ M, x ≠ '/') (hMlen : 10 ≤ M.length)
    {K : Nat} (hK : K ≤ 10) (hSlashK : '/' ∈ rest.take K)
    (hh1 : rest.head? ≠ some '/') (hh2 : rest.head? ≠ some 'x')
    (hne : rest ≠ []) :
    occursIn ('/' :: rest) ("https:".data ++ '/' :: '/' :: (M ++ '/' :: ['x'])) = false := by
  obtain ⟨r0, rt, rfl⟩ : ∃ r0 rt, rest = r0 :: rt := by
    cases rest with
    | nil => exact absurd rfl hne
    | cons a b => exact ⟨a, b, rfl⟩
  have hr0 : r0 ≠ '/' := fun h => hh1 (by rw [List.head?_cons, h])
  have hr0x : r0 ≠ 'x' := fun h => hh2 (by rw [List.head?_cons, h])
  rw [occursIn_append_skip (by decide)]
  rw [occursIn_cons, occursIn_cons]
  have hlw1 : leadsWith ('/' :: r0 :: rt) ('/' :: '/' :: (M ++ '/' :: ['x'])) = false := by
    simp [leadsWith, beq_eq_false_iff_ne, hr0]
  have hlw2 : leadsWith ('/' :: r0 :: rt) ('/' :: (M ++ '/' :: ['x'])) = false := by
    cases hlw : leadsWith (r0 :: rt) (M ++ '/' :: ['x']) with
    | false => simp [leadsWith, hlw]
    | true =>
      exfalso
      have hsub := leadsWith_take_subset hlw
      have hKM : ((r0 :: rt).take M.length).take K = (r0 :: rt).take K := by
        rw [List.take_take, Nat.min_eq_left (le_trans hK hMlen)]
      have : ('/' : Char) ∈ (r0 :: rt).take M.length := by
        rw [← hKM] at hSlashK
        exact List.take_subset _ _ hSlashK
      exact hM '/' (hsub '/' this) rfl
  rw [hlw1, hlw2, occursIn_append_skip hM, occursIn_cons, occursIn_cons]
  have hlw3 : leadsWith ('/' :: r0 :: rt) ('/' :: ['x']) = false := by
    simp [leadsWith, beq_eq_false_iff_ne, hr0x]
  have hlw4 : leadsWith ('/' :: r0 :: rt) ['x'] = false := leadsWith_head_ne (by decide)
  rw [hlw3, hlw4]
  simp [occursIn, afterFirst, leadsWith]

theorem M_facts {l d : List Char} (hl2 : ∀ x ∈ l, isLabelChar x = true)
    (hd : ∀ x ∈ d, isDomChar x = true) :
    ∀ x ∈ lowStr l ++ '.' :: d, x ≠ '/' ∧ x ≠ '?' ∧ x ≠ '_' := by
  intro x hx
  rcases List.mem_append.mp hx with hx | hx
  · obtain ⟨y, hy, rfl⟩ := List.mem_map.mp hx
    have hf := labelChar_facts (hl2 y hy)
    exact ⟨hf.1, hf.2.1, hf.2.2.1⟩
  · rcases List.mem_cons.mp hx with rfl | hx
    · exact ⟨by decide, by decide, by decide⟩
    · have hf := domChar_facts (hd x hx)
      exact ⟨hf.2.1, hf.2.2.1, hf.2.2.2.1⟩

theorem M_length {l d : List Char} (hl1 : l ≠ []) (hdlen : 8 ≤ d.length) :
    10 ≤ (lowStr l ++ '.' :: d).length := by
  have h1 : 1 ≤ l.length := List.length_pos.mpr hl1
  simp only [List.length_append, List.length_cons, lowStr, List.length_map]
  omega

theorem lowURL_eq {L D : String} (hd : ∀ x ∈ D.data, isDomChar x = true) :
    lowStr ("https://" ++ L ++ "." ++ D ++ "/x").data
      = "https:".data ++ '/' :: '/' :: ((lowStr L.data ++ '.' :: D.data) ++ '/' :: ['x']) := by
  have hinner : lowStr (L.data ++ '.' :: (D.data ++ ['/', 'x']))
      = lowStr L.data ++ '.' :: (D.data ++ ['/', 'x']) := by
    rw [lowStr_append, lowStr_cons, lowStr_append, lowStr_eq_self_of_domChars hd,
      show lowChar '.' = '.' from by decide, show lowStr ['/', 'x'] = ['/', 'x'] from by decide]
  rw [data_composite, lowStr_append, hinner,
    show lowStr "https://".data = "https://".data from by decide,
    show ("https://".data : List Char) = "https:".data ++ ['/', '/'] from by decide]
  simp [List.append_assoc]

theorem matchesAllow_composite_false (cfg : BlockerConfig) {L D : String}
    (hl1 : L.data ≠ []) (hl2 : ∀ x ∈ L.data, isLabelChar x = true)
    (hd : ∀ x ∈ D.data, isDomChar x = true) (hdlen : 8 ≤ D.data.length) :
    matchesAllowPattern (compileFilters cfg) ("https://" ++ L ++ "." ++ D ++ "/x") = false := by
  have hM := M_facts hl2 hd
  have hMslash : ∀ x ∈ lowStr L.data ++ '.' :: D.data, x ≠ '/' := fun x hx => (hM x hx).1
  have hMlen := M_length hl1 hdlen
  unfold matchesAllowPattern
  simp only [compileFilters, ALLOW_PATTERNS, List.map_cons, List.map_nil, List.any_cons,
    List.any_nil, Bool.or_eq_false_iff]
  refine ⟨?_, ?_, ?_, ?_, trivial⟩
  · rw [regexTest_starless (by decide), lowURL_eq hd,
      show lowStr "/videoplayback?".data = "/videoplayback?".data from by decide]
    apply not_occursIn_of_lacks (c := '?') (by decide)
    intro hmem
    simp only [List.mem_append, List.mem_cons, List.mem_singleton, List.not_mem_nil] at hmem
    rcases hmem with h | h | h | h | h | h
    · exact absurd h (by decide)
    · exact absurd h (by decide)
    · exact absurd h (by decide)
    · rcases h with h | h | h
      · obtain ⟨y, hy, hyq⟩ := List.mem_map.mp h
        exact (labelChar_facts (hl2 y hy)).2.1 hyq
      · exact absurd h (by decide)
      · exact (domChar_facts (hd _ h)).2.2.1 rfl
    · exact absurd h (by decide)
    · exact absurd h (by decide)
  · rw [regexTest_starless (by decide), lowURL_eq hd,
      show lowStr "/manifest/".data = '/' :: "manifest/".data from by decide]
    exact not_occursIn_slash_composite hMslash hMlen (K := 9) (by decide) (by decide)
      (by decide) (by decide) (by decide)
  · rw [regexTest_starless (by decide), lowURL_eq hd,
      show lowStr "/api/timedtext".data = '/' :: "api/timedtext".data from by decide]
    exact not_occursIn_slash_composite hMslash hMlen (K := 4) (by decide) (by decide)
      (by decide) (by decide) (by decide)
  · rw [regexTest_starless (by decide), lowURL_eq hd,
      show lowStr "/generate_204".data = "/generate_204".data from by decide]
    apply not_occursIn_of_lacks (c := '_') (by decide)
    intro hmem
    simp only [List.mem_append, List.mem_cons, List.mem_singleton, List.not_mem_nil] at hmem
    rcases hmem with h | h | h | h | h | h
    · exact absurd h (by decide)
    · exact absurd h (by decide)
    · exact absurd h (by decide)
    · rcases h with h | h | h
      · obtain ⟨y, hy, hyq⟩ := List.mem_map.mp h
        exact (labelChar_facts (hl2 y hy)).2.2.1 hyq
      · exact absurd h (by decide)
      · exact (domChar_facts (hd _ h)).2.2.2.1 rfl
    · exact absurd h (by decide)
    · exact absurd h (by decide)

theorem extractDomain_composite {L D : String}
    (hl2 : ∀ x ∈ L.data, isLabelChar x = true)
    (hd : ∀ x ∈ D.data, isDomChar x = true) :
    extractDomain ("https://" ++ L ++ "." ++ D ++ "/x") = some (lowStr L.data ++ '.' :: D.data) := by
  have hhostL : ∀ x ∈ L.data, hostChar x = true := fun x hx =>
    (labelChar_facts (hl2 x hx)).2.2.2.2.1
  have hhostD : ∀ x ∈ D.data, hostChar x = true := fun x hx =>
    (domChar_facts (hd x hx)).2.2.2.2
  have hsch : schemeDrop ("https://" ++ L ++ "." ++ D ++ "/x").data
      = some (L.data ++ '.' :: (D.data ++ ['/', 'x'])) := by
    unfold schemeDrop
    rw [data_composite, List.take_left' (by decide), List.drop_left' (by decide),
      show lowStr "https://".data = "https://".data from by decide, if_pos rfl]
  simp only [extractDomain, hsch, takeWhile_append_all hhostL, List.takeWhile_cons,
    show hostChar '.' = true from by decide, if_true, takeWhile_append_all hhostD,
    show List.takeWhile hostChar ['/', 'x'] = [] from by decide, List.append_nil,
    ne_eq, List.append_eq_nil, List.cons_ne_nil, and_false, not_false_iff]
  rw [lowStr_append, lowStr_cons, lowStr_eq_self_of_domChars hd,
    show lowChar '.' = '.' from by decide]

theorem isDomainBlocked_subdomain {doms : List (List Char)} {ll d : List Char}
    (hll : ∀ x ∈ ll, x ≠ '.') (hdot : 2 ≤ (splitOnChar '.' d).length)
    (hmem : d ∈ doms) :
    isDomainBlocked doms (ll ++ '.' :: d) = true := by
  unfold isDomainBlocked
  apply Bool.or_eq_true_iff.mpr
  right
  rw [show splitOnChar '.' (ll ++ '.' :: d) = ll :: splitOnChar '.' d from splitOnChar_append hll]
  apply List.any_eq_true.mpr
  refine ⟨1, List.mem_range.mpr ?_, ?_⟩
  · simp only [List.length_cons]
    omega
  · simp only [List.drop_succ_cons, List.drop_zero, Bool.and_eq_true, decide_eq_true_eq]
    refine ⟨⟨le_refl 1, ?_⟩, ?_⟩
    · simp only [List.length_cons]
      omega
    · rw [intercalate_splitOnChar]
      simpa using hmem

theorem shouldBlock_subdomain_blocked (cfg : BlockerConfig) (hen : cfg.enabled = true)
    {L D : String} (hlab : isLabel L = true)
    (hd : D.data.all isDomChar = true) (hdlen : 8 ≤ D.data.length)
    (hdot : 2 ≤ (splitOnChar '.' D.data).length)
    (hmem : D.data ∈ AD_DOMAINS.map String.data) :
    (shouldBlock (mkBlocker cfg) (some ("https://" ++ L ++ "." ++ D ++ "/x"))).1.blocked = true := by
  obtain ⟨hne, hall⟩ := Bool.and_eq_true_iff.mp hlab
  have hl1 : L.data ≠ [] := by
    intro h
    rw [h] at hne
    simp at hne
  have hl2 : ∀ x ∈ L.data, isLabelChar x = true := List.all_eq_true.mp hall
  have hd' : ∀ x ∈ D.data, isDomChar x = true := List.all_eq_true.mp hd
  have hll : ∀ x ∈ lowStr L.data, x ≠ '.' := by
    intro x hx
    obtain ⟨y, hy, hyq⟩ := List.mem_map.mp hx
    exact hyq ▸ (labelChar_facts (hl2 y hy)).2.2.2.1
  have hu_ne : ("https://" ++ L ++ "." ++ D ++ "/x") ≠ "" := by
    intro h
    have h2 := congrArg String.data h
    rw [data_composite] at h2
    simp at h2
  simp only [shouldBlock, mkBlocker, hen, Bool.not_true, if_false, hu_ne,
    matchesAllow_composite_false cfg hl1 hl2 hd' hdlen,
    extractDomain_composite hl2 hd',
    Bool.false_eq_true, ite_false, ite_true]
  rw [if_pos (isDomainBlocked_subdomain hll hdot
    (show D.data ∈ (compileFilters cfg).blockedDomains by simpa [compileFilters] using hmem))]

/-- Well-formedness of the static blocked-domain list: every entry is made
of lower-case domain characters, contains a dot (at least two labels), and
is at least 8 characters long. -/
theorem adDomains_wf : ∀ D ∈ AD_DOMAINS, D.data.all isDomChar = true
    ∧ 2 ≤ (splitOnChar '.' D.data).length ∧ 8 ≤ D.data.length := by decide

/-- The successor state of `shouldBlock` is `logBlocked st` on a blocked
verdict and `st` itself otherwise. -/
theorem shouldBlock_state_eq (st : BlockerState) (url : Option String) :
    (shouldBlock st url).2
      = (if (shouldBlock st url).1.blocked = true then logBlocked st else st) := by
  cases url with
  | none =>
    unfold shouldBlock
    split <;> rfl
  | some u =>
    unfold shouldBlock
    dsimp only
    repeat' split
    all_goals first | rfl | simp_all

theorem logBlocked_config (st : BlockerState) :
    (logBlocked st).config = st.config ∧ (logBlocked st).filters = st.filters := by
  unfold logBlocked
  split <;> simp

theorem logBlocked_count_of_true (st : BlockerState) (h : st.config.logBlocked = true) :
    (logBlocked st).blockedCount = st.blockedCount + 1 := by
  unfold logBlocked
  rw [if_pos h]

theorem logBlocked_of_false (st : BlockerState) (h : st.config.logBlocked = false) :
    logBlocked st = st := by
  unfold logBlocked
  rw [h]
  simp

/-! ### Claim theorems -/

/-- C1: allow patterns take precedence over all block rules: on an enabled
engine whose filters are the compiled rule set, every URL matching an allow
pattern gets a non-blocked verdict with the allow reason, even when it also
matches a blocked pattern and has a blocked domain; in particular a URL
containing both the allow marker and a blocked marker is allowed. -/
theorem C1_allow_patterns_take_precedence :
    (∀ (st : BlockerState) (url : String),
      st.filters = compileFilters st.config →
      st.config.enabled = true →
      matchesAllowPattern st.filters url = true →
      (shouldBlock st (some url)).1
        = { blocked := false, reason := some "Matched allow pattern", matchedRulePattern := none })
    ∧ (shouldBlock (mkBlocker ⟨true, true, []⟩)
        (some "https://doubleclick.net/videoplayback?v=1&ad_type=skip")).1
        = { blocked := false, reason := some "Matched allow pattern", matchedRulePattern := none }
    ∧ matchesBlockedPattern (compileFilters ⟨true, true, []⟩)
        "https://doubleclick.net/videoplayback?v=1&ad_type=skip" = true
    ∧ isDomainBlocked (AD_DOMAINS.map String.data) "doubleclick.net".data = true := by
  refine ⟨?_, by decide, by decide, by decide⟩
  intro st url hf hen hallow
  by_cases hu : url = ""
  · subst hu
    rw [hf] at hallow
    have hfa : matchesAllowPattern (compileFilters st.config) "" = false := rfl
    rw [hfa] at hallow
    cases hallow
  · simp only [shouldBlock, hen, Bool.not_true, if_false, hu, hallow, ite_false, ite_true,
      Bool.false_eq_true]

/-- Witness for C1 at a concrete state and URL. -/
theorem C1_witness :
    (shouldBlock (mkBlocker ⟨true, false, []⟩) (some "https://x.test/videoplayback?a=1")).1
      = { blocked := false, reason := some "Matched allow pattern", matchedRulePattern := none } :=
  C1_allow_patterns_take_precedence.1 (mkBlocker ⟨true, false, []⟩)
    "https://x.test/videoplayback?a=1" rfl rfl (by decide)
/-- C2: domain blocking with dot-delimited suffix semantics: every blocked
domain is blocked directly with a reason citing it; prefixing any hostname
label also blocks; a hostname that merely contains a blocked domain as a
substring (not as a dot-delimited suffix) is not blocked by the domain
rule; and on a two-label hostname the suffix loop never consults the bare
top-level label, so blocking reduces to exact set membership. -/
theorem C2_domain_suffix_blocking :
    (∀ D ∈ AD_DOMAINS,
      (shouldBlock (mkBlocker ⟨true, true, []⟩) (some ("https://" ++ D ++ "/path"))).1
        = { blocked := true, reason := some ("Blocked domain: " ++ D),
            matchedRulePattern := some D })
    ∧ (∀ D ∈ AD_DOMAINS, ∀ L : String, isLabel L = true → ∀ cfg : BlockerConfig,
        cfg.enabled = true →
        (shouldBlock (mkBlocker cfg) (some ("https://" ++ L ++ "." ++ D ++ "/x"))).1.blocked
          = true)
    ∧ isDomainBlocked (AD_DOMAINS.map String.data) "notgoogleadservices.com.evil.test".data
        = false
    ∧ (∀ (doms : List (List Char)) (l t : List Char),
        (∀ x ∈ l, x ≠ '.') → (∀ x ∈ t, x ≠ '.') →
        isDomainBlocked doms (l ++ '.' :: t) = doms.contains (l ++ '.' :: t)) := by
  refine ⟨by decide, ?_, by decide, ?_⟩
  · intro D hD L hlab cfg hen
    obtain ⟨hall, hdot, hlen⟩ := adDomains_wf D hD
    exact shouldBlock_subdomain_blocked cfg hen hlab hall hlen hdot
      (List.mem_map_of_mem String.data hD)
  · intro doms l t hl ht
    unfold isDomainBlocked
    rw [splitOnChar_append hl, splitOnChar_no_sep ht]
    simp [List.range_succ]

/-- Witness for C2 at a concrete domain and label. -/
theorem C2_witness :
    (shouldBlock (mkBlocker ⟨true, true, []⟩)
      (some ("https://" ++ "ads" ++ "." ++ "doubleclick.net" ++ "/x"))).1.blocked = true :=
  C2_domain_suffix_blocking.2.1 "doubleclick.net" (by decide) "ads" (by decide)
    ⟨true, true, []⟩ rfl
/-- C3: the compiled filter set is the same for every config — in
particular `customRules` are NOT appended to the blocked patterns
(`compileFilters` never reads its argument), so a URL matching a custom
rule pattern (and nothing else) is not blocked. -/
theorem C3_custom_rules_ignored :
    (∀ cfg : BlockerConfig,
      compileFilters cfg = compileFilters { enabled := true, logBlocked := false, customRules := [] })
    ∧ regexTest (patternToRegex "&mycustomad=") "https://example.com/page?q=1&mycustomad=7" = true
    ∧ (shouldBlock (mkBlocker ⟨true, true, ["&mycustomad="]⟩)
        (some "https://example.com/page?q=1&mycustomad=7")).1.blocked = false :=
  ⟨fun _ => rfl, by decide, by decide⟩

/-- C4: invalid input fails open: on an enabled engine, a `none`
(non-string) input and the empty string both yield a non-blocked verdict
with the invalid-URL reason and an unchanged state; more generally every
non-blocked verdict leaves the state unchanged (no exception channel
exists: `shouldBlock` is total and always returns a verdict). -/
theorem C4_invalid_input_fails_open :
    (∀ st : BlockerState, st.config.enabled = true →
      shouldBlock st none
        = ({ blocked := false, reason := some "Invalid URL", matchedRulePattern := none }, st)
      ∧ shouldBlock st (some "")
        = ({ blocked := false, reason := some "Invalid URL", matchedRulePattern := none }, st))
    ∧ (∀ (st : BlockerState) (url : Option String),
        (shouldBlock st url).1.blocked = false → (shouldBlock st url).2 = st) := by
  constructor
  · intro st hen
    constructor <;> simp [shouldBlock, hen]
  · intro st url hb
    rw [shouldBlock_state_eq, hb]
    simp

/-- Witness for C4 at a concrete state. -/
theorem C4_witness :
    shouldBlock (mkBlocker ⟨true, true, []⟩) none
      = ({ blocked := false, reason := some "Invalid URL", matchedRulePattern := none },
         mkBlocker ⟨true, true, []⟩) :=
  (C4_invalid_input_fails_open.1 (mkBlocker ⟨true, true, []⟩) rfl).1

/-- C5: disabling short-circuits everything: with `enabled = false` every
input (including blocked domains and blocked patterns) gets the disabled
reason and an unchanged state, and `setEnabled` changes only the
`enabled` flag — filters are not recompiled and nothing else moves. -/
theorem C5_disabled_short_circuits :
    (∀ (st : BlockerState) (url : Option String), st.config.enabled = false →
      shouldBlock st url
        = ({ blocked := false, reason := some "Blocking disabled", matchedRulePattern := none }, st))
    ∧ (∀ (st : BlockerState) (b : Bool),
        (setEnabled st b).config.enabled = b
        ∧ (setEnabled st b).config.logBlocked = st.config.logBlocked
        ∧ (setEnabled st b).config.customRules = st.config.customRules
        ∧ (setEnabled st b).filters = st.filters
        ∧ (setEnabled st b).blockedCount = st.blockedCount)
    ∧ isDomainBlocked (AD_DOMAINS.map String.data) "doubleclick.net".data = true
    ∧ matchesBlockedPattern (compileFilters ⟨true, true, []⟩)
        "https://x.test/a?&ad_type=1" = true := by
  refine ⟨?_, ?_, by decide, by decide⟩
  · intro st url hdis
    simp [shouldBlock, hdis]
  · intro st b
    exact ⟨rfl, rfl, rfl, rfl, rfl⟩

/-- Witness for C5 at a concrete disabled state and a blocked-domain URL. -/
theorem C5_witness :
    shouldBlock (setEnabled (mkBlocker ⟨true, true, []⟩) false)
        (some "https://doubleclick.net/x")
      = ({ blocked := false, reason := some "Blocking disabled", matchedRulePattern := none },
         setEnabled (mkBlocker ⟨true, true, []⟩) false) :=
  C5_disabled_short_circuits.1 (setEnabled (mkBlocker ⟨true, true, []⟩) false)
    (some "https://doubleclick.net/x") rfl
/-- C6: wildcard pattern compilation: a `*`-free pattern matches exactly
when its lower-cased text occurs as a substring of the lower-cased URL
(every non-`*` character is literal, matching is case-insensitive), and
the compiled `"&ad_type=*"` matches the ad-tagged watch URL but not the
same URL without the tag, also when the pattern is upper-cased. -/
theorem C6_wildcard_pattern_compilation :
    (∀ p s : String, (∀ x ∈ p.data, x ≠ '*') →
      (regexTest (patternToRegex p) s = true
        ↔ ∃ l r, lowStr s.data = l ++ lowStr p.data ++ r))
    ∧ regexTest (patternToRegex "&ad_type=*") "https://x.test/watch?v=1&ad_type=skippable" = true
    ∧ regexTest (patternToRegex "&ad_type=*") "https://x.test/watch?v=1" = false
    ∧ regexTest (patternToRegex "&AD_TYPE=*") "https://x.test/watch?v=1&ad_type=skippable" = true := by
  refine ⟨?_, by decide, by decide, by decide⟩
  intro p s hp
  rw [regexTest_starless hp]
  exact occursIn_iff

/-- Witness for C6: a case-insensitive literal match through the general
characterization. -/
theorem C6_witness :
    regexTest (patternToRegex "ad_type") "WATCH?AD_TYPE=1" = true :=
  (C6_wildcard_pattern_compilation.1 "ad_type" "WATCH?AD_TYPE=1" (by decide)).mpr
    ⟨"watch?".data, "=1".data, by decide⟩

/-- C7: statistics counter contract: with logging enabled each blocked
verdict increments `blockedCount` by exactly one and every non-blocked
verdict leaves it unchanged; `getStats` returns the counter with the
enabled flag; `resetStats` zeroes the counter and changes nothing else. -/
theorem C7_stats_counter_contract :
    (∀ (st : BlockerState) (url : Option String), st.config.logBlocked = true →
      (shouldBlock st url).2.blockedCount
        = st.blockedCount + (if (shouldBlock st url).1.blocked = true then 1 else 0))
    ∧ (∀ st : BlockerState, getStats st = { blockedCount := st.blockedCount, enabled := st.config.enabled })
    ∧ (∀ st : BlockerState, (resetStats st).blockedCount = 0
        ∧ (resetStats st).config = st.config ∧ (resetStats st).filters = st.filters) := by
  refine ⟨?_, fun st => rfl, fun st => ⟨rfl, rfl, rfl⟩⟩
  intro st url hlog
  rw [shouldBlock_state_eq]
  by_cases hb : (shouldBlock st url).1.blocked = true
  · simp [hb, logBlocked_count_of_true st hlog]
  · simp [hb]

/-- Witness for C7 at a blocked URL on a logging state. -/
theorem C7_witness :
    (shouldBlock (mkBlocker ⟨true, true, []⟩) (some "https://doubleclick.net/x")).2.blockedCount
      = (mkBlocker ⟨true, true, []⟩).blockedCount
        + (if (shouldBlock (mkBlocker ⟨true, true, []⟩)
              (some "https://doubleclick.net/x")).1.blocked = true then 1 else 0) :=
  C7_stats_counter_contract.1 (mkBlocker ⟨true, true, []⟩) (some "https://doubleclick.net/x") rfl
/-- C8: the generated hiding CSS is the comma-join of all static selectors
followed by one single rule (one brace pair) forcing `display:none` and
zero height, which also covers `video` elements inside an `.ad-showing`
container; every selector occurs in the output exactly once. -/
theorem C8_css_selectors_exactly_once :
    generateAdHidingCSS
      = String.intercalate "," (YOUTUBE_AD_SELECTORS.map fun s => s.selector)
        ++ ",.ad-showing video\x7bdisplay:none!important;height:0!important;\x7d"
    ∧ (∀ s ∈ YOUTUBE_AD_SELECTORS, countOcc s.selector.data generateAdHidingCSS.data = 1)
    ∧ countOcc "\x7b".data generateAdHidingCSS.data = 1
    ∧ countOcc "\x7d".data generateAdHidingCSS.data = 1
    ∧ countOcc ".ad-showing video\x7bdisplay:none!important;height:0!important;\x7d".data
        generateAdHidingCSS.data = 1 :=
  ⟨rfl, by decide, by decide, by decide, by decide⟩

/-- Witness for C8 at the first selector of the static list. -/
theorem C8_witness :
    countOcc (AdSelector.mk ".video-ads" "remove" "Video ad container").selector.data
      generateAdHidingCSS.data = 1 :=
  C8_css_selectors_exactly_once.2.1 (AdSelector.mk ".video-ads" "remove" "Video ad container")
    (by decide)

/-- C9: script generation is cached and idempotent: from a fresh injector,
the first call generates and caches the script, a second call returns the
identical text without changing the state, and after a cache clear a
further call returns text equal to the originally generated text; the
same holds for the preload script. -/
theorem C9_script_caching_idempotent :
    (getInjectedJavaScript newInjector).1 = generateAdRemovalScript
    ∧ (getInjectedJavaScript newInjector).2.cachedMainScript = some generateAdRemovalScript
    ∧ (getInjectedJavaScript (getInjectedJavaScript newInjector).2).1
        = (getInjectedJavaScript newInjector).1
    ∧ (getInjectedJavaScript (getInjectedJavaScript newInjector).2).2
        = (getInjectedJavaScript newInjector).2
    ∧ (getInjectedJavaScript (clearCache (getInjectedJavaScript newInjector).2)).1
        = (getInjectedJavaScript newInjector).1
    ∧ (getPreloadScript newInjector).1 = generatePreloadScript
    ∧ (getPreloadScript (getPreloadScript newInjector).2).1 = (getPreloadScript newInjector).1
    ∧ (getPreloadScript (getPreloadScript newInjector).2).2 = (getPreloadScript newInjector).2
    ∧ (getPreloadScript (clearCache (getPreloadScript newInjector).2)).1
        = (getPreloadScript newInjector).1 :=
  ⟨rfl, rfl, rfl, rfl, rfl, rfl, rfl, rfl, rfl⟩

/-- C10: with logging disabled `shouldBlock` never changes the state (in
particular `blockedCount` stays put across any call sequence), and in
general the only state change `shouldBlock` can make is the single
counter increment performed when logging is enabled. -/
theorem C10_no_count_without_logging :
    (∀ (st : BlockerState) (url : Option String), st.config.logBlocked = false →
      (shouldBlock st url).2 = st)
    ∧ (∀ (st : BlockerState) (urls : List (Option String)), st.config.logBlocked = false →
        urls.foldl (fun s u => (shouldBlock s u).2) st = st)
    ∧ (∀ (st : BlockerState) (url : Option String),
        (shouldBlock st url).2 = st
        ∨ (st.config.logBlocked = true
           ∧ (shouldBlock st url).2 = { st with blockedCount := st.blockedCount + 1 })) := by
  have h1 : ∀ (st : BlockerState) (url : Option String), st.config.logBlocked = false →
      (shouldBlock st url).2 = st := by
    intro st url hlog
    rw [shouldBlock_state_eq]
    by_cases hb : (shouldBlock st url).1.blocked = true
    · simp [hb, logBlocked_of_false st hlog]
    · simp [hb]
  refine ⟨h1, ?_, ?_⟩
  · intro st urls hlog
    induction urls with
    | nil => rfl
    | cons u us ih =>
      rw [List.foldl_cons, h1 st u hlog]
      exact ih
  · intro st url
    rw [shouldBlock_state_eq]
    by_cases hb : (shouldBlock st url).1.blocked = true
    · cases hlog : st.config.logBlocked
      · left
        simp [hb, logBlocked_of_false st hlog]
      · right
        refine ⟨rfl, ?_⟩
        simp [hb]
        unfold logBlocked
        rw [if_pos hlog]
    · left
      simp [hb]

/-- Witness for C10 at a blocked URL on a non-logging state. -/
theorem C10_witness :
    (shouldBlock (mkBlocker ⟨true, false, []⟩) (some "https://doubleclick.net/x")).2
      = mkBlocker ⟨true, false, []⟩ :=
  C10_no_count_without_logging.1 (mkBlocker ⟨true, false, []⟩)
    (some "https://doubleclick.net/x") rfl

end YouTubeBG
